import Mathlib

/-!
Verification development for the NICSSIM pressurized-water-plant simulation.

Shallow embedding of the tag-based control triad:
* `plcLogic`   embeds `PLC1._logic`            (src/NICSSIM/src/PLC1.py)
* `simLogic`   embeds `FactorySimulation._logic` (src/NICSSIM/src/FactorySimulation.py)
* `drain`      embeds the scheduled-write drain of `AttackerLatencyProxy._logic`
* `spikeWriteVal` embeds the spike-value computation of `AttackerSensorSpike._logic`
* `hmiTickOps` embeds the tag-store interaction of the HMI tick (src/NICSSIM/src/HMI1.py)

Scalars are modelled as rationals (`ℚ`); the Gaussian/uniform noise draws and the
random decisions of the transient blocks are explicit parameters, so every theorem
quantifies over all possible draws.
-/

/-- Clamp as used in PLC1.py: `min(max(x, lo), hi)`. -/
def clampQ (x lo hi : ℚ) : ℚ := min (max x lo) hi

/-- Clamp as used in FactorySimulation._clamp: `lo if x < lo else hi if x > hi else x`. -/
def simClamp (x lo hi : ℚ) : ℚ := if x < lo then lo else if x > hi then hi else x

/-- Clamp as used in FactorySimulation._clamp01: `0.0 if x < 0.0 else 1.0 if x > 1.0 else x`. -/
def clamp01 (x : ℚ) : ℚ := if x < 0 then 0 else if x > 1 then 1 else x

namespace PLC1

/-- PLC1.HYST: temp/flow alarm clear margin. -/
def HYST : ℚ := 0.5

/-- PLC1.P_HYST: MPa hysteresis for core pressure controls. -/
def P_HYST : ℚ := 0.05

/-- PLC1.RAD_HYST: alarm clear margin for radiation. -/
def RAD_HYST : ℚ := 0.02

/-- PLC1.SG_P_HYST: MPa relief close hysteresis (secondary side). -/
def SG_P_HYST : ℚ := 0.10

/-- PLC1.FW_KP: feedwater proportional gain. -/
def FW_KP : ℚ := 0.006

/-- PLC1.FW_KI: feedwater integral gain. -/
def FW_KI : ℚ := 0.000004

/-- Modelled from the spec: `ics_sim.Device.PLC._check_manual_input` is not under
src/ (only its callers are).  Per the spec (section 4.4), the mode tag selects
manual override: mode 1 (manual-off) and mode 2 (manual-on) mean the PLC does not
overwrite the corresponding command tag; mode 3 is auto.  The helper returns
`true` exactly when the mode reads manual. -/
def checkManualInput (mode : ℚ) : Bool := decide (mode = 1 ∨ mode = 2)

/-- Sensor and limit values read by one PLC scan (`PLC1._logic` reads these from
the tag store at the start of the tick). -/
structure PLCIn where
  flux : ℚ
  t_in : ℚ
  t_out : ℚ
  p_core : ℚ
  p_sg_in : ℚ
  flow : ℚ
  rad : ℚ
  sg_t_in : ℚ
  sg_t_out : ℚ
  sg_p : ℚ
  sg_level : ℚ
  sg_fwflow : ℚ
  flux_sp : ℚ
  tmax : ℚ
  pmax : ℚ
  phihi : ℚ
  fmin : ℚ
  radmax : ℚ
  sg_lvl_min : ℚ
  sg_lvl_max : ℚ
  sg_p_max : ℚ
  sg_p_hihi : ℚ

/-- The tag-store cells `PLC1._logic` may write, plus the mode tags that gate
them and the internal feedwater integrator `_fw_int`. -/
structure PLCState where
  rod_mode : ℚ
  rcp_mode : ℚ
  cool_mode : ℚ
  loop_mode : ℚ
  heater_mode : ℚ
  spray_mode : ℚ
  pv_mode : ℚ
  fw_mode : ℚ
  rod : ℚ
  rcp_cmd : ℚ
  cool_cmd : ℚ
  loop_cmd : ℚ
  heater_cmd : ℚ
  spray_cmd : ℚ
  pv_cmd : ℚ
  fw_cmd : ℚ
  relief : ℚ
  sg_relief : ℚ
  alarm : ℚ
  fw_int : ℚ

/-- One scan of `PLC1._logic` (sections 1-8 of the source, in source order).
Logging and the change-detection guards (`if new != old: _write`) do not affect
the written value, so the embedding returns the post-tick cell values directly. -/
def plcLogic (inp : PLCIn) (s : PLCState) : PLCState :=
  -- 1) Control rods (reactivity)
  let rod :=
    if checkManualInput s.rod_mode then s.rod
    else clampQ (s.rod + (inp.flux - inp.flux_sp) * 4.0) 0 100
  -- 2) Primary pump speed (flow)
  let rcp_cmd :=
    if checkManualInput s.rcp_mode then s.rcp_cmd
    else
      let cmd := s.rcp_cmd
      let cmd :=
        if inp.t_out > inp.tmax - 3.0 ∨ inp.flow < inp.fmin + 0.05 then cmd + 0.02
        else if inp.t_out < inp.tmax - 8.0 ∧ inp.flow > inp.fmin + 0.2 then cmd - 0.01
        else cmd
      clampQ cmd 0 1
  -- 3) Heat removal valve
  let cool_cmd :=
    if checkManualInput s.cool_mode then s.cool_cmd
    else
      let v := s.cool_cmd
      let v :=
        if inp.t_out > inp.tmax - 2.0 then v + 0.02
        else if inp.t_out < inp.tmax - 10.0 then v - 0.01
        else v
      clampQ v 0 1
  -- 4) Primary loop flow-control valve
  let loop_cmd :=
    if checkManualInput s.loop_mode then s.loop_cmd
    else
      let lv := s.loop_cmd
      let lv :=
        if inp.flow < inp.fmin + 0.05 ∨ inp.t_out > inp.tmax - 5.0 then lv + 0.02
        else if inp.flow > inp.fmin + 0.2 ∧ inp.t_out < inp.tmax - 12.0 then lv - 0.01
        else lv
      clampQ lv 0 1
  -- 5) Pressurizer heater and spray
  let heater_cmd :=
    if checkManualInput s.heater_mode then s.heater_cmd
    else
      let h := s.heater_cmd
      let h :=
        if inp.p_core < inp.pmax - P_HYST then h + 0.03
        else if inp.p_core > inp.pmax + 0.02 then h - 0.02
        else h
      clampQ h 0 1
  let spray_cmd :=
    if checkManualInput s.spray_mode then s.spray_cmd
    else
      let sp := s.spray_cmd
      let sp :=
        if inp.p_core > inp.pmax + 0.03 then sp + 0.03
        else if inp.p_core < inp.pmax - P_HYST then sp - 0.02
        else sp
      clampQ sp 0 1
  -- Core relief (latched with hysteresis), and the analog mirror in AUTO
  let relief :=
    if inp.p_core > inp.phihi then 1
    else if inp.p_core < inp.pmax - 0.05 then 0
    else s.relief
  let pv_cmd :=
    if checkManualInput s.pv_mode then s.pv_cmd
    else if relief ≠ 0 then 1.0 else 0.0
  -- 6) Steam generator feedwater control (PI with clamped integrator)
  let fwPair :=
    if checkManualInput s.fw_mode then
      (s.fw_cmd, s.fw_int * 0.98)
    else
      let lvl_sp_mid := (inp.sg_lvl_max + inp.sg_lvl_min) / 2.0
      let lvl_err := lvl_sp_mid - inp.sg_level
      let fwi := clampQ (s.fw_int + lvl_err * 0.001) (-0.5) 0.5
      (clampQ (s.fw_cmd + FW_KP * lvl_err + FW_KI * fwi) 0 1, fwi)
  -- 7) Steam generator relief valve
  let sg_relief :=
    if inp.sg_p > inp.sg_p_hihi then 1
    else if inp.sg_p < inp.sg_p_max - SG_P_HYST then 0
    else s.sg_relief
  -- 8) Alarm logic (latched)
  let core_trip :=
    inp.t_out > inp.tmax ∨ inp.p_core > inp.pmax ∨ inp.flow < inp.fmin ∨ inp.rad > inp.radmax
  let sg_trip :=
    inp.sg_p > inp.sg_p_max ∨ inp.sg_level < inp.sg_lvl_min ∨ inp.sg_level > inp.sg_lvl_max
  let clear_core :=
    inp.t_out < inp.tmax - HYST ∧ inp.p_core < inp.pmax - P_HYST ∧
    inp.flow > inp.fmin + 0.02 ∧ inp.rad < inp.radmax - RAD_HYST
  let clear_sg :=
    inp.sg_p < inp.sg_p_max - SG_P_HYST ∧
    (inp.sg_lvl_min + 2.0 < inp.sg_level ∧ inp.sg_level < inp.sg_lvl_max - 2.0)
  let alarm :=
    if s.alarm ≠ 0 then
      if clear_core ∧ clear_sg then 0 else s.alarm
    else
      if core_trip ∨ sg_trip then 1 else s.alarm
  { s with
    rod := rod, rcp_cmd := rcp_cmd, cool_cmd := cool_cmd, loop_cmd := loop_cmd,
    heater_cmd := heater_cmd, spray_cmd := spray_cmd, pv_cmd := pv_cmd,
    fw_cmd := fwPair.1, fw_int := fwPair.2,
    relief := relief, sg_relief := sg_relief, alarm := alarm }

end PLC1

namespace PLC1

/-- Projection of `plcLogic` at the core-alarm cell (definitional). -/
lemma plcLogic_alarm (inp : PLCIn) (s : PLCState) :
    (plcLogic inp s).alarm =
      if s.alarm ≠ 0 then
        if (inp.t_out < inp.tmax - HYST ∧ inp.p_core < inp.pmax - P_HYST ∧
            inp.flow > inp.fmin + 0.02 ∧ inp.rad < inp.radmax - RAD_HYST) ∧
           (inp.sg_p < inp.sg_p_max - SG_P_HYST ∧
            (inp.sg_lvl_min + 2.0 < inp.sg_level ∧ inp.sg_level < inp.sg_lvl_max - 2.0))
        then 0 else s.alarm
      else
        if (inp.t_out > inp.tmax ∨ inp.p_core > inp.pmax ∨ inp.flow < inp.fmin ∨
            inp.rad > inp.radmax) ∨
           (inp.sg_p > inp.sg_p_max ∨ inp.sg_level < inp.sg_lvl_min ∨
            inp.sg_level > inp.sg_lvl_max)
        then 1 else s.alarm := rfl

/-- Projection of `plcLogic` at the core relief status cell (definitional). -/
lemma plcLogic_relief (inp : PLCIn) (s : PLCState) :
    (plcLogic inp s).relief =
      if inp.p_core > inp.phihi then 1
      else if inp.p_core < inp.pmax - 0.05 then 0
      else s.relief := rfl

/-- Projection of `plcLogic` at the analog pressurizer-valve command (definitional). -/
lemma plcLogic_pv_cmd (inp : PLCIn) (s : PLCState) :
    (plcLogic inp s).pv_cmd =
      if checkManualInput s.pv_mode then s.pv_cmd
      else if (plcLogic inp s).relief ≠ 0 then 1.0 else 0.0 := rfl

/-- Projection of `plcLogic` at the feedwater valve command (definitional). -/
lemma plcLogic_fw_cmd (inp : PLCIn) (s : PLCState) :
    (plcLogic inp s).fw_cmd =
      if checkManualInput s.fw_mode then s.fw_cmd
      else
        clampQ (s.fw_cmd + FW_KP * ((inp.sg_lvl_max + inp.sg_lvl_min) / 2.0 - inp.sg_level)
                 + FW_KI * clampQ (s.fw_int + ((inp.sg_lvl_max + inp.sg_lvl_min) / 2.0 - inp.sg_level) * 0.001) (-0.5) 0.5)
               0 1 := by
  simp only [plcLogic]
  split <;> rfl

/-- Projection of `plcLogic` at the feedwater integrator (definitional). -/
lemma plcLogic_fw_int (inp : PLCIn) (s : PLCState) :
    (plcLogic inp s).fw_int =
      if checkManualInput s.fw_mode then s.fw_int * 0.98
      else
        clampQ (s.fw_int + ((inp.sg_lvl_max + inp.sg_lvl_min) / 2.0 - inp.sg_level) * 0.001) (-0.5) 0.5 := by
  simp only [plcLogic]
  split <;> rfl

/-- C1: on a tick where the alarm tag reads 0, the PLC writes 1 exactly when
some trip condition holds on the values read that tick; on a tick where it
reads 1, it writes 0 exactly when every clear condition holds; otherwise the
tag is left unchanged, so once set the alarm stays set until the full clear
predicate holds. -/
theorem alarm_latched_update (inp : PLCIn) (s : PLCState) :
    (s.alarm = 0 →
      (plcLogic inp s).alarm =
        if inp.t_out > inp.tmax ∨ inp.p_core > inp.pmax ∨ inp.flow < inp.fmin ∨
           inp.rad > inp.radmax ∨ inp.sg_p > inp.sg_p_max ∨
           inp.sg_level < inp.sg_lvl_min ∨ inp.sg_level > inp.sg_lvl_max
        then 1 else 0) ∧
    (s.alarm = 1 →
      (plcLogic inp s).alarm =
        if inp.t_out < inp.tmax - 0.5 ∧ inp.p_core < inp.pmax - 0.05 ∧
           inp.flow > inp.fmin + 0.02 ∧ inp.rad < inp.radmax - 0.02 ∧
           inp.sg_p < inp.sg_p_max - 0.10 ∧
           inp.sg_lvl_min + 2 < inp.sg_level ∧ inp.sg_level < inp.sg_lvl_max - 2
        then 0 else 1) := by
  constructor
  · intro h
    rw [plcLogic_alarm, h]
    norm_num only
    split_ifs <;> first | rfl | (exfalso; tauto)
  · intro h
    rw [plcLogic_alarm, h]
    have h1 : (1 : ℚ) ≠ 0 := by norm_num
    rw [if_pos h1]
    unfold HYST P_HYST RAD_HYST SG_P_HYST
    norm_num only
    split_ifs <;> first | rfl | (exfalso; tauto)

/-- Concrete over-temperature input used to witness the alarm trip. -/
def c1WIn : PLCIn :=
  { flux := 0.8, t_in := 290, t_out := 321, p_core := 15.0, p_sg_in := 14.9,
    flow := 0.6, rad := 0.02, sg_t_in := 220, sg_t_out := 260, sg_p := 6.5,
    sg_level := 60, sg_fwflow := 0.6, flux_sp := 0.9, tmax := 320, pmax := 15.5,
    phihi := 15.9, fmin := 0.5, radmax := 0.2, sg_lvl_min := 30, sg_lvl_max := 80,
    sg_p_max := 7.0, sg_p_hihi := 7.5 }

/-- Nominal PLC-visible tag state: all modes auto, alarm and reliefs clear. -/
def nomSt : PLCState :=
  { rod_mode := 3, rcp_mode := 3, cool_mode := 3, loop_mode := 3,
    heater_mode := 3, spray_mode := 3, pv_mode := 3, fw_mode := 3,
    rod := 50, rcp_cmd := 0.6, cool_cmd := 0.5, loop_cmd := 0.5,
    heater_cmd := 0.2, spray_cmd := 0, pv_cmd := 0, fw_cmd := 0.6,
    relief := 0, sg_relief := 0, alarm := 0, fw_int := 0 }

/-- Witness for C1: with `temp_out = 321 > tmax = 320` and the alarm reading 0,
the tick sets the alarm tag to 1. -/
theorem alarm_latched_update_witness : (plcLogic c1WIn nomSt).alarm = 1 := by
  have h := (alarm_latched_update c1WIn nomSt).1 rfl
  rwa [if_pos] at h
  left
  show (321 : ℚ) > 320
  norm_num

end PLC1

namespace PLC1

/-- C2: per tick the core relief status becomes 1 when `p_core > phihi`, becomes
0 when (not above HI-HI and) `p_core < pmax - 0.05`, and otherwise keeps its
previous value; and with the pressurizer valve mode auto (3) the analog command
is written to exactly 1.0 when the resulting relief state is 1 and 0.0 when it
is 0. -/
theorem core_relief_update (inp : PLCIn) (s : PLCState) :
    (inp.p_core > inp.phihi → (plcLogic inp s).relief = 1) ∧
    (¬ inp.p_core > inp.phihi → inp.p_core < inp.pmax - 0.05 →
      (plcLogic inp s).relief = 0) ∧
    (¬ inp.p_core > inp.phihi → ¬ inp.p_core < inp.pmax - 0.05 →
      (plcLogic inp s).relief = s.relief) ∧
    (s.pv_mode = 3 →
      ((plcLogic inp s).relief = 1 → (plcLogic inp s).pv_cmd = 1.0) ∧
      ((plcLogic inp s).relief = 0 → (plcLogic inp s).pv_cmd = 0.0)) := by
  refine ⟨?_, ?_, ?_, ?_⟩
  · intro h
    rw [plcLogic_relief, if_pos h]
  · intro h1 h2
    rw [plcLogic_relief, if_neg h1, if_pos h2]
  · intro h1 h2
    rw [plcLogic_relief, if_neg h1, if_neg h2]
  · intro hmode
    have hman : checkManualInput s.pv_mode = false := by
      rw [hmode]
      unfold checkManualInput
      norm_num
    constructor
    · intro h1
      rw [plcLogic_pv_cmd, hman, if_neg (by norm_num), h1, if_pos (by norm_num)]
    · intro h0
      rw [plcLogic_pv_cmd, hman, if_neg (by norm_num), h0]
      norm_num

/-- Concrete over-pressure input used to witness the relief latch. -/
def c2WIn : PLCIn :=
  { flux := 0.8, t_in := 290, t_out := 300, p_core := 16.0, p_sg_in := 14.9,
    flow := 0.6, rad := 0.02, sg_t_in := 220, sg_t_out := 260, sg_p := 6.5,
    sg_level := 60, sg_fwflow := 0.6, flux_sp := 0.9, tmax := 320, pmax := 15.5,
    phihi := 15.9, fmin := 0.5, radmax := 0.2, sg_lvl_min := 30, sg_lvl_max := 80,
    sg_p_max := 7.0, sg_p_hihi := 7.5 }

/-- Witness for C2: at `p_core = 16.0 > phihi = 15.9` with the pressurizer valve
mode auto, the relief status becomes 1 and the analog mirror is written 1.0. -/
theorem core_relief_update_witness :
    (plcLogic c2WIn nomSt).relief = 1 ∧ (plcLogic c2WIn nomSt).pv_cmd = 1.0 := by
  have h := core_relief_update c2WIn nomSt
  have hgt : c2WIn.p_core > c2WIn.phihi := by
    norm_num [c2WIn]
  have hrel := h.1 hgt
  exact ⟨hrel, (h.2.2.2 rfl).1 hrel⟩

/-- Nominal PLC input with nominal limits, used for the C5 counterexample. -/
def c5In : PLCIn :=
  { flux := 0.8, t_in := 290, t_out := 300, p_core := 15.0, p_sg_in := 14.9,
    flow := 0.6, rad := 0.02, sg_t_in := 220, sg_t_out := 260, sg_p := 6.5,
    sg_level := 60, sg_fwflow := 0.6, flux_sp := 0.9, tmax := 320, pmax := 15.5,
    phihi := 15.9, fmin := 0.5, radmax := 0.2, sg_lvl_min := 30, sg_lvl_max := 80,
    sg_p_max := 7.0, sg_p_hihi := 7.5 }

/-- Feedwater mode manual-off with a nonzero integrator, for the C5 counterexample. -/
def c5St : PLCState := { nomSt with fw_mode := 1, fw_int := 0.5 }

/-- Counterexample to C5 as stated: with the feedwater valve mode reading manual
(1) and `fw_int = 0.5`, the tick leaves the command tag alone but multiplies the
integrator by 0.98 (`self._fw_int *= 0.98`), so `fw_int` is not frozen. -/
theorem fw_manual_frozen_cex :
    ¬ ((plcLogic c5In c5St).fw_cmd = c5St.fw_cmd ∧
       (plcLogic c5In c5St).fw_int = c5St.fw_int) := by
  rintro ⟨-, h⟩
  rw [plcLogic_fw_int] at h
  have hman : checkManualInput c5St.fw_mode = true := by
    show checkManualInput 1 = true
    unfold checkManualInput
    norm_num
  rw [hman, if_pos rfl] at h
  have : (0.5 : ℚ) * 0.98 = 0.5 := h
  norm_num at this

/-- C5 amended: on a manual-mode tick (mode 1 or 2) the PLC does not overwrite
the feedwater valve command tag, and the integrator decays by the fixed
anti-windup factor, `fw_int` becoming `fw_int * 0.98` (not frozen). -/
theorem fw_manual_update (inp : PLCIn) (s : PLCState)
    (h : s.fw_mode = 1 ∨ s.fw_mode = 2) :
    (plcLogic inp s).fw_cmd = s.fw_cmd ∧
    (plcLogic inp s).fw_int = s.fw_int * 0.98 := by
  have hman : checkManualInput s.fw_mode = true := by
    unfold checkManualInput
    exact decide_eq_true h
  rw [plcLogic_fw_cmd, plcLogic_fw_int, hman]
  exact ⟨if_pos rfl, if_pos rfl⟩

/-- Witness for the amended C5: at mode 1 with `fw_int = 0.5` the command tag is
unchanged and the integrator becomes 0.49. -/
theorem fw_manual_update_witness :
    (plcLogic c5In c5St).fw_cmd = c5St.fw_cmd ∧
    (plcLogic c5In c5St).fw_int = c5St.fw_int * 0.98 :=
  fw_manual_update c5In c5St (Or.inl rfl)

end PLC1

namespace PHYSICS

/-- Configs.PHYSICS.AMBIENT_TEMP. -/
def AMBIENT_TEMP : ℚ := 290.0

/-- Configs.PHYSICS.HEAT_GAIN_K. -/
def HEAT_GAIN_K : ℚ := 0.008

/-- Configs.PHYSICS.COOLING_K (canonical constant). -/
def COOLING_K : ℚ := 0.004

/-- The `COOlING_K` typo alias probed by `hasattr(PHYSICS, 'COOlING_K')` in
FactorySimulation._logic.  Configs.PHYSICS defines no such attribute, so the
embedding records it as `none`; `simLogic` takes the alias when present and the
canonical `COOLING_K` otherwise, exactly as the guarded expression does. -/
def COOlING_K_alias : Option ℚ := none

/-- Configs.PHYSICS.PRESSURE_K_TEMP. -/
def PRESSURE_K_TEMP : ℚ := 0.035

/-- Configs.PHYSICS.PRESSURE_K_HEATER. -/
def PRESSURE_K_HEATER : ℚ := 0.020

/-- Configs.PHYSICS.PRESSURE_K_SPRAY. -/
def PRESSURE_K_SPRAY : ℚ := 0.030

/-- Configs.PHYSICS.PRESSURE_K_RELIEF. -/
def PRESSURE_K_RELIEF : ℚ := 0.080

/-- Configs.PHYSICS.FLOW_INERTIA. -/
def FLOW_INERTIA : ℚ := 0.003

/-- Configs.PHYSICS.VALVE_INERTIA. -/
def VALVE_INERTIA : ℚ := 0.003

/-- Configs.PHYSICS.FLUX_INERTIA. -/
def FLUX_INERTIA : ℚ := 0.002

/-- Configs.PHYSICS.RAD_BASELINE. -/
def RAD_BASELINE : ℚ := 0.02

/-- Configs.PHYSICS.SG_SEC_FEEDWATER_TEMP. -/
def SG_SEC_FEEDWATER_TEMP : ℚ := 220.0

/-- Configs.PHYSICS.SG_HX_K. -/
def SG_HX_K : ℚ := 0.005

/-- Configs.PHYSICS.SG_LEVEL_INERTIA. -/
def SG_LEVEL_INERTIA : ℚ := 0.002

/-- Configs.PHYSICS.SG_BOIL_OFF_K. -/
def SG_BOIL_OFF_K : ℚ := 0.004

/-- Configs.PHYSICS.SG_PRESSURE_K. -/
def SG_PRESSURE_K : ℚ := 0.020

/-- Configs.PHYSICS.SG_PRESSURE_RELIEF_K. -/
def SG_PRESSURE_RELIEF_K : ℚ := 0.08

end PHYSICS

namespace Factory

/-- Tag values `FactorySimulation._logic` reads from the store at the start of
the tick. -/
structure SimIn where
  flux : ℚ
  temp_in : ℚ
  temp_out : ℚ
  pressure : ℚ
  flow : ℚ
  rcp_cmd : ℚ
  cool_valve : ℚ
  loop_valve : ℚ
  rod_pos : ℚ
  flux_sp : ℚ
  heater_cmd : ℚ
  spray_cmd : ℚ
  relief_status : ℚ
  sg_sec_t_in : ℚ
  sg_sec_t_out : ℚ
  sg_p : ℚ
  sg_level : ℚ
  sg_relief_status : ℚ
  sg_fw_cmd : ℚ

/-- Simulator-internal plant state (`self._cool_valve_eff`, `self._loop_valve_eff`,
`self._sg_fw_meas` and the two stochastic transient blocks). -/
structure SimInternal where
  cool_valve_eff : ℚ
  loop_valve_eff : ℚ
  sg_fw_meas : ℚ
  rad_active : Bool
  rad_level : ℚ
  leak_active : Bool
  leak_level : ℚ

/-- One Gaussian draw per noisy variable of the tick, in source order. -/
structure SimNoise where
  flux_n : ℚ
  tout_n : ℚ
  p_n : ℚ
  sgin_n : ℚ
  rad_n : ℚ
  sgtout_n : ℚ
  lvl_n : ℚ
  sgp_n : ℚ
  leak_n : ℚ

/-- The random decisions of the two transient blocks for this tick: whether the
start draw fired (`random.random() < prob`), the freshly drawn level, and
whether the active window has expired (`now >= until`). -/
structure SimRand where
  rad_start : Bool
  rad_new_level : ℚ
  rad_expired : Bool
  leak_start : Bool
  leak_new_level : ℚ
  leak_expired : Bool

/-- The values `FactorySimulation._logic` writes back to the store this tick,
plus the post-tick internal state. -/
structure SimOut where
  flux : ℚ
  temp_in : ℚ
  temp_out : ℚ
  pressure : ℚ
  flow : ℚ
  sg_in_p : ℚ
  rad : ℚ
  sg_sec_t_in : ℚ
  sg_sec_t_out : ℚ
  sg_p : ℚ
  sg_level : ℚ
  sg_fw_flow : ℚ
  sg_leak : ℚ
  loop_valve_pos : ℚ
  cool_valve_eff : ℚ
  loop_valve_eff : ℚ
  rad_active : Bool
  rad_level : ℚ
  leak_active : Bool
  leak_level : ℚ

/-- Floor of the loop step: `if dt <= 0: dt = 1` (milliseconds). -/
def dtFloor (dtRaw : ℚ) : ℚ := if dtRaw ≤ 0 then 1 else dtRaw

/-- `relief_open = 1.0 if <relief status tag> else 0.0`. -/
def reliefOpen (inp : SimIn) : ℚ := if inp.relief_status ≠ 0 then 1.0 else 0.0

/-- `sg_relief = 1.0 if <SG relief status tag> else 0.0`. -/
def sgReliefOpen (inp : SimIn) : ℚ := if inp.sg_relief_status ≠ 0 then 1.0 else 0.0

/-- Pump-flow first-order lag: `flow += (rcp_cmd - flow) * (FLOW_INERTIA * dt)`. -/
def flowLag (dt : ℚ) (inp : SimIn) : ℚ :=
  inp.flow + (inp.rcp_cmd - inp.flow) * (PHYSICS.FLOW_INERTIA * dt)

/-- Cooling-valve effective position lag, clamped to `[0, 1]`. -/
def coolValveEffUpd (dt : ℚ) (inp : SimIn) (st : SimInternal) : ℚ :=
  clamp01 (st.cool_valve_eff + (inp.cool_valve - st.cool_valve_eff) * (PHYSICS.VALVE_INERTIA * dt))

/-- Loop-valve effective position lag, clamped to `[0, 1]`; also published as the
measured loop valve position. -/
def loopValveEffUpd (dt : ℚ) (inp : SimIn) (st : SimInternal) : ℚ :=
  clamp01 (st.loop_valve_eff + (inp.loop_valve - st.loop_valve_eff) * (PHYSICS.VALVE_INERTIA * dt))

/-- Flux update: lag toward `flux_sp * max(0.05, 1 - rod_pos/120)`, Gaussian noise
added, then clamped nonnegative (`flux = max(0.0, flux + gauss)`). -/
def fluxUpd (dt : ℚ) (inp : SimIn) (n : SimNoise) : ℚ :=
  max 0.0 (inp.flux +
    (max 0.0 (inp.flux_sp * max 0.05 (1.0 - inp.rod_pos / 120.0)) - inp.flux) *
      (PHYSICS.FLUX_INERTIA * dt) + n.flux_n)

/-- `effective_cooling_valve = cool_valve_eff * loop_valve_eff` (post-lag values). -/
def effValve (dt : ℚ) (inp : SimIn) (st : SimInternal) : ℚ :=
  coolValveEffUpd dt inp st * loopValveEffUpd dt inp st

/-- `heat_gain = HEAT_GAIN_K * flux * dt` (updated flux). -/
def heatGain (dt : ℚ) (inp : SimIn) (n : SimNoise) : ℚ :=
  PHYSICS.HEAT_GAIN_K * fluxUpd dt inp n * dt

/-- The guarded cooling-loss expression of the source: the `COOlING_K` typo alias
is used when `hasattr(PHYSICS, 'COOlING_K')`, otherwise the canonical `COOLING_K`;
the lagged (pre-clamp) flow and the old `temp_out` enter the formula. -/
def coolLoss (dt : ℚ) (inp : SimIn) (st : SimInternal) : ℚ :=
  (PHYSICS.COOlING_K_alias.getD PHYSICS.COOLING_K) * (flowLag dt inp * effValve dt inp st) *
    max 0.0 (inp.temp_out - PHYSICS.AMBIENT_TEMP) * dt

/-- `temp_in += (AMBIENT_TEMP - temp_in) * 0.001 * dt`. -/
def tempInUpd (dt : ℚ) (inp : SimIn) : ℚ :=
  inp.temp_in + (PHYSICS.AMBIENT_TEMP - inp.temp_in) * 0.001 * dt

/-- `temp_out = temp_out + heat_gain - cool_loss` followed by the Gaussian term. -/
def tempOutUpd (dt : ℚ) (inp : SimIn) (st : SimInternal) (n : SimNoise) : ℚ :=
  inp.temp_out + heatGain dt inp n - coolLoss dt inp st + n.tout_n

/-- `pressure_base = 14.7 + PRESSURE_K_TEMP * max(0, temp_out - AMBIENT_TEMP)`
(updated `temp_out`). -/
def pressureBase (dt : ℚ) (inp : SimIn) (st : SimInternal) (n : SimNoise) : ℚ :=
  14.7 + PHYSICS.PRESSURE_K_TEMP * max 0.0 (tempOutUpd dt inp st n - PHYSICS.AMBIENT_TEMP)

/-- Pressurizer pressure update: heater/spray/relief increments scaled by `dt_s`,
low-pass toward `pressure_base`, then the Gaussian term. -/
def pressureUpd (dt : ℚ) (inp : SimIn) (st : SimInternal) (n : SimNoise) : ℚ :=
  0.98 * (inp.pressure + PHYSICS.PRESSURE_K_HEATER * inp.heater_cmd * (dt / 1000)
            - PHYSICS.PRESSURE_K_SPRAY * inp.spray_cmd * (dt / 1000)
            - PHYSICS.PRESSURE_K_RELIEF * reliefOpen inp * (dt / 1000))
    + 0.02 * pressureBase dt inp st n + n.p_n

/-- `sg_in_p = max(0, pressure - 0.05 + gauss)` (updated pressure). -/
def sgInPUpd (dt : ℚ) (inp : SimIn) (st : SimInternal) (n : SimNoise) : ℚ :=
  max 0.0 (pressureUpd dt inp st n - 0.05 + n.sgin_n)

/-- Whether the radiation transient starts this tick (inactive, and the
probability draw fired). -/
def radSpikeStart (st : SimInternal) (r : SimRand) : Bool :=
  !st.rad_active && r.rad_start

/-- Post-tick activity of the radiation transient: a spike may start, and an
active spike deactivates once `now >= until`. -/
def radActiveUpd (st : SimInternal) (r : SimRand) : Bool :=
  if (st.rad_active || radSpikeStart st r) && r.rad_expired then false
  else st.rad_active || radSpikeStart st r

/-- Post-tick level of the radiation transient block. -/
def radLevelUpd (st : SimInternal) (r : SimRand) : ℚ :=
  if radSpikeStart st r then r.rad_new_level else st.rad_level

/-- `rad = (level if active else RAD_BASELINE) + gauss`, clamped nonnegative. -/
def radOut (st : SimInternal) (n : SimNoise) (r : SimRand) : ℚ :=
  max 0.0 ((if radActiveUpd st r then radLevelUpd st r else PHYSICS.RAD_BASELINE) + n.rad_n)

/-- `flow = clamp(flow, 0.0, 1.2)` — the value written back. -/
def flowOut (dt : ℚ) (inp : SimIn) : ℚ := simClamp (flowLag dt inp) 0.0 1.2

/-- `target_fw_flow = 0.02 + 0.98 * clamp01(sg_fw_cmd)`. -/
def targetFwFlow (inp : SimIn) : ℚ := 0.02 + 0.98 * clamp01 inp.sg_fw_cmd

/-- Feedwater measured-flow lag toward `target_fw_flow`, clamped to `[0, 1]`. -/
def sgFwMeasUpd (dt : ℚ) (inp : SimIn) (st : SimInternal) : ℚ :=
  clamp01 (st.sg_fw_meas + (targetFwFlow inp - st.sg_fw_meas) * (PHYSICS.VALVE_INERTIA * dt))

/-- `sg_sec_t_in += (SG_SEC_FEEDWATER_TEMP - sg_sec_t_in) * 0.002 * dt`. -/
def sgSecTInUpd (dt : ℚ) (inp : SimIn) : ℚ :=
  inp.sg_sec_t_in + (PHYSICS.SG_SEC_FEEDWATER_TEMP - inp.sg_sec_t_in) * 0.002 * dt

/-- `hx_gain = SG_HX_K * max(0, temp_out - sg_sec_t_in) * (flow * eff) * dt`
(updated temperatures, clamped flow). -/
def hxGain (dt : ℚ) (inp : SimIn) (st : SimInternal) (n : SimNoise) : ℚ :=
  PHYSICS.SG_HX_K * max 0.0 (tempOutUpd dt inp st n - sgSecTInUpd dt inp) *
    (flowOut dt inp * effValve dt inp st) * dt

/-- Secondary outlet temperature: add `hx_gain` and noise, then
`min(. , temp_out)` followed by `max(. , sg_sec_t_in)` — in that source order. -/
def sgSecTOutUpd (dt : ℚ) (inp : SimIn) (st : SimInternal) (n : SimNoise) : ℚ :=
  max (min (inp.sg_sec_t_out + hxGain dt inp st n + n.sgtout_n) (tempOutUpd dt inp st n))
    (sgSecTInUpd dt inp)

/-- `steam_prod = max(0, sg_sec_t_out - sg_sec_t_in) * sg_fw_meas`. -/
def steamProd (dt : ℚ) (inp : SimIn) (st : SimInternal) (n : SimNoise) : ℚ :=
  max 0.0 (sgSecTOutUpd dt inp st n - sgSecTInUpd dt inp) * sgFwMeasUpd dt inp st

/-- SG level update (feedwater in, boil-off out), noise, then clamp `[0, 100]`. -/
def sgLevelUpd (dt : ℚ) (inp : SimIn) (st : SimInternal) (n : SimNoise) : ℚ :=
  simClamp (inp.sg_level +
    (50.0 * sgFwMeasUpd dt inp st - 100.0 * PHYSICS.SG_BOIL_OFF_K * steamProd dt inp st n) *
      (PHYSICS.SG_LEVEL_INERTIA * dt) + n.lvl_n) 0.0 100.0

/-- SG steam pressure update with relief, noise, then clamp nonnegative. -/
def sgPUpd (dt : ℚ) (inp : SimIn) (st : SimInternal) (n : SimNoise) : ℚ :=
  max 0.0 (inp.sg_p + PHYSICS.SG_PRESSURE_K * steamProd dt inp st n * (dt / 1000)
    - PHYSICS.SG_PRESSURE_RELIEF_K * sgReliefOpen inp * (dt / 1000) + n.sgp_n)

/-- Whether the SG leak transient starts this tick. -/
def leakSpikeStart (st : SimInternal) (r : SimRand) : Bool :=
  !st.leak_active && r.leak_start

/-- Post-tick activity of the SG leak transient block. -/
def leakActiveUpd (st : SimInternal) (r : SimRand) : Bool :=
  if (st.leak_active || leakSpikeStart st r) && r.leak_expired then false
  else st.leak_active || leakSpikeStart st r

/-- Post-tick level of the SG leak transient block. -/
def leakLevelUpd (st : SimInternal) (r : SimRand) : ℚ :=
  if leakSpikeStart st r then r.leak_new_level else st.leak_level

/-- `sg_leak = max(0, (level if active else 0) + gauss)`. -/
def sgLeakOut (st : SimInternal) (n : SimNoise) (r : SimRand) : ℚ :=
  max 0.0 ((if leakActiveUpd st r then leakLevelUpd st r else 0.0) + n.leak_n)

/-- One tick of `FactorySimulation._logic`: the written-back tag values and the
post-tick internal state, assembled from the per-assignment updates above in
source order.  `dtRaw` is the elapsed milliseconds; the source floors
non-positive steps to 1 ms. -/
def simLogic (dtRaw : ℚ) (inp : SimIn) (st : SimInternal) (n : SimNoise)
    (r : SimRand) : SimOut :=
  { flux := fluxUpd (dtFloor dtRaw) inp n,
    temp_in := tempInUpd (dtFloor dtRaw) inp,
    temp_out := tempOutUpd (dtFloor dtRaw) inp st n,
    pressure := pressureUpd (dtFloor dtRaw) inp st n,
    flow := flowOut (dtFloor dtRaw) inp,
    sg_in_p := sgInPUpd (dtFloor dtRaw) inp st n,
    rad := radOut st n r,
    sg_sec_t_in := sgSecTInUpd (dtFloor dtRaw) inp,
    sg_sec_t_out := sgSecTOutUpd (dtFloor dtRaw) inp st n,
    sg_p := sgPUpd (dtFloor dtRaw) inp st n,
    sg_level := sgLevelUpd (dtFloor dtRaw) inp st n,
    sg_fw_flow := sgFwMeasUpd (dtFloor dtRaw) inp st,
    sg_leak := sgLeakOut st n r,
    loop_valve_pos := loopValveEffUpd (dtFloor dtRaw) inp st,
    cool_valve_eff := coolValveEffUpd (dtFloor dtRaw) inp st,
    loop_valve_eff := loopValveEffUpd (dtFloor dtRaw) inp st,
    rad_active := radActiveUpd st r,
    rad_level := radLevelUpd st r,
    leak_active := leakActiveUpd st r,
    leak_level := leakLevelUpd st r }


end Factory

/-- Lower bound of the simulator clamp when the interval is nonempty. -/
lemma simClamp_lb (x lo hi : ℚ) (h : lo ≤ hi) : lo ≤ simClamp x lo hi := by
  unfold simClamp
  split_ifs <;> linarith

/-- Upper bound of the simulator clamp when the interval is nonempty. -/
lemma simClamp_ub (x lo hi : ℚ) (h : lo ≤ hi) : simClamp x lo hi ≤ hi := by
  unfold simClamp
  split_ifs <;> linarith

/-- The unit clamp is nonnegative. -/
lemma clamp01_lb (x : ℚ) : 0 ≤ clamp01 x := by
  unfold clamp01
  split_ifs <;> linarith

/-- The unit clamp is at most one. -/
lemma clamp01_ub (x : ℚ) : clamp01 x ≤ 1 := by
  unfold clamp01
  split_ifs <;> linarith

namespace Factory

/-- Zero is below `max 0.0 x` (the source writes the clamp with a float literal). -/
lemma zero_le_maxZ (x : ℚ) : 0 ≤ max 0.0 x :=
  le_trans (by norm_num) (le_max_left 0.0 x)

/-- The written flow value is nonnegative. -/
lemma flowOut_lb (dt : ℚ) (inp : SimIn) : 0 ≤ flowOut dt inp := by
  unfold flowOut simClamp
  split_ifs <;> linarith

/-- The written flow value is at most 1.2. -/
lemma flowOut_ub (dt : ℚ) (inp : SimIn) : flowOut dt inp ≤ 1.2 := by
  unfold flowOut simClamp
  split_ifs <;> linarith

/-- The written SG level is nonnegative. -/
lemma sgLevelUpd_lb (dt : ℚ) (inp : SimIn) (st : SimInternal) (n : SimNoise) :
    0 ≤ sgLevelUpd dt inp st n := by
  unfold sgLevelUpd simClamp
  split_ifs <;> linarith

/-- The written SG level is at most 100. -/
lemma sgLevelUpd_ub (dt : ℚ) (inp : SimIn) (st : SimInternal) (n : SimNoise) :
    sgLevelUpd dt inp st n ≤ 100 := by
  unfold sgLevelUpd simClamp
  split_ifs <;> linarith

/-- C4: for every tick, every input state and every noise/transient draw, the
sensor values written back satisfy `flow ∈ [0, 1.2]`, the effective valve
positions and measured feedwater flow lie in `[0, 1]`, `sg_level ∈ [0, 100]`,
and `sg_p`, `rad`, `flux` are nonnegative — each bound taken after the Gaussian
term for that variable is added. -/
theorem sim_sensor_bounds (dtRaw : ℚ) (inp : SimIn) (st : SimInternal)
    (n : SimNoise) (r : SimRand) :
    0 ≤ (simLogic dtRaw inp st n r).flow ∧ (simLogic dtRaw inp st n r).flow ≤ 1.2 ∧
    0 ≤ (simLogic dtRaw inp st n r).cool_valve_eff ∧
    (simLogic dtRaw inp st n r).cool_valve_eff ≤ 1 ∧
    0 ≤ (simLogic dtRaw inp st n r).loop_valve_eff ∧
    (simLogic dtRaw inp st n r).loop_valve_eff ≤ 1 ∧
    0 ≤ (simLogic dtRaw inp st n r).sg_fw_flow ∧
    (simLogic dtRaw inp st n r).sg_fw_flow ≤ 1 ∧
    0 ≤ (simLogic dtRaw inp st n r).sg_level ∧
    (simLogic dtRaw inp st n r).sg_level ≤ 100 ∧
    0 ≤ (simLogic dtRaw inp st n r).sg_p ∧
    0 ≤ (simLogic dtRaw inp st n r).rad ∧
    0 ≤ (simLogic dtRaw inp st n r).flux := by
  refine ⟨?_, ?_, ?_, ?_, ?_, ?_, ?_, ?_, ?_, ?_, ?_, ?_, ?_⟩
  · simp only [simLogic]
    exact flowOut_lb _ _
  · simp only [simLogic]
    exact flowOut_ub _ _
  · simp only [simLogic, coolValveEffUpd]
    exact clamp01_lb _
  · simp only [simLogic, coolValveEffUpd]
    exact clamp01_ub _
  · simp only [simLogic, loopValveEffUpd]
    exact clamp01_lb _
  · simp only [simLogic, loopValveEffUpd]
    exact clamp01_ub _
  · simp only [simLogic, sgFwMeasUpd]
    exact clamp01_lb _
  · simp only [simLogic, sgFwMeasUpd]
    exact clamp01_ub _
  · simp only [simLogic]
    exact sgLevelUpd_lb _ _ _ _
  · simp only [simLogic]
    exact sgLevelUpd_ub _ _ _ _
  · simp only [simLogic, sgPUpd]
    exact zero_le_maxZ _
  · simp only [simLogic, radOut]
    exact zero_le_maxZ _
  · simp only [simLogic, fluxUpd]
    exact zero_le_maxZ _

end Factory

namespace Factory

/-- All Gaussian draws zero, for concrete evaluations. -/
def zeroNoise : SimNoise :=
  { flux_n := 0, tout_n := 0, p_n := 0, sgin_n := 0, rad_n := 0,
    sgtout_n := 0, lvl_n := 0, sgp_n := 0, leak_n := 0 }

/-- No transient starts, none expires, for concrete evaluations. -/
def quietRand : SimRand :=
  { rad_start := false, rad_new_level := 0, rad_expired := false,
    leak_start := false, leak_new_level := 0, leak_expired := false }

/-- Input with the secondary inlet (220) hotter than the primary outlet (100),
reachable e.g. after a freeze attack writes a low `core_temp_out_value`. -/
def c3In : SimIn :=
  { flux := 0, temp_in := 290, temp_out := 100, pressure := 15, flow := 0,
    rcp_cmd := 0, cool_valve := 0, loop_valve := 0, rod_pos := 0, flux_sp := 0,
    heater_cmd := 0, spray_cmd := 0, relief_status := 0,
    sg_sec_t_in := 220, sg_sec_t_out := 150, sg_p := 6.5, sg_level := 60,
    sg_relief_status := 0, sg_fw_cmd := 0.6 }

/-- Internal simulator state matching `c3In` (valves shut, no transients). -/
def c3St : SimInternal :=
  { cool_valve_eff := 0, loop_valve_eff := 0, sg_fw_meas := 0.6,
    rad_active := false, rad_level := 0.02, leak_active := false, leak_level := 0 }

/-- Counterexample to C3 as stated: with `sg_sec_t_in = 220` and
`temp_out = 100` the written secondary outlet temperature is 220 (the lower
clamp is applied after the upper one and wins), so `sg_sec_t_out ≤ temp_out`
fails; the claimed two-sided clamp cannot hold when `sg_sec_t_in` exceeds
`temp_out`. -/
theorem hx_clamp_cex :
    ¬ ((simLogic 100 c3In c3St zeroNoise quietRand).sg_sec_t_in ≤
         (simLogic 100 c3In c3St zeroNoise quietRand).sg_sec_t_out ∧
       (simLogic 100 c3In c3St zeroNoise quietRand).sg_sec_t_out ≤
         (simLogic 100 c3In c3St zeroNoise quietRand).temp_out) := by
  rintro ⟨-, h⟩
  have hout : (simLogic 100 c3In c3St zeroNoise quietRand).sg_sec_t_out = 220 := by
    norm_num [simLogic, sgSecTOutUpd, hxGain, tempOutUpd, heatGain, fluxUpd, coolLoss,
      flowLag, effValve, coolValveEffUpd, loopValveEffUpd, clamp01, flowOut, simClamp,
      sgSecTInUpd, dtFloor, c3In, c3St, zeroNoise, max_def, min_def,
      PHYSICS.COOLING_K, PHYSICS.COOlING_K_alias, PHYSICS.HEAT_GAIN_K,
      PHYSICS.FLOW_INERTIA, PHYSICS.VALVE_INERTIA, PHYSICS.FLUX_INERTIA,
      PHYSICS.AMBIENT_TEMP, PHYSICS.SG_SEC_FEEDWATER_TEMP, PHYSICS.SG_HX_K]
  have htmp : (simLogic 100 c3In c3St zeroNoise quietRand).temp_out = 100 := by
    norm_num [simLogic, tempOutUpd, heatGain, fluxUpd, coolLoss, flowLag, effValve,
      coolValveEffUpd, loopValveEffUpd, clamp01, dtFloor, c3In, c3St, zeroNoise,
      max_def, min_def,
      PHYSICS.COOLING_K, PHYSICS.COOlING_K_alias, PHYSICS.HEAT_GAIN_K,
      PHYSICS.FLOW_INERTIA, PHYSICS.VALVE_INERTIA, PHYSICS.FLUX_INERTIA,
      PHYSICS.AMBIENT_TEMP]
  rw [hout, htmp] at h
  norm_num at h

/-- C3 amended: after the heat-exchange update the written secondary outlet
temperature always satisfies `sg_sec_t_in ≤ sg_sec_t_out`, and it satisfies
`sg_sec_t_out ≤ temp_out` whenever the updated `sg_sec_t_in` does not exceed
the updated `temp_out` (when it does, the lower clamp wins and
`sg_sec_t_out = sg_sec_t_in > temp_out`). -/
theorem hx_clamp_bounds (dtRaw : ℚ) (inp : SimIn) (st : SimInternal)
    (n : SimNoise) (r : SimRand) :
    (simLogic dtRaw inp st n r).sg_sec_t_in ≤ (simLogic dtRaw inp st n r).sg_sec_t_out ∧
    ((simLogic dtRaw inp st n r).sg_sec_t_in ≤ (simLogic dtRaw inp st n r).temp_out →
      (simLogic dtRaw inp st n r).sg_sec_t_out ≤ (simLogic dtRaw inp st n r).temp_out) := by
  simp only [simLogic]
  constructor
  · unfold sgSecTOutUpd
    exact le_max_right _ _
  · intro h
    unfold sgSecTOutUpd
    exact max_le (min_le_right _ _) h

/-- Input `c3In` with a primary outlet temperature above the secondary inlet. -/
def c3WIn : SimIn := { c3In with temp_out := 300 }

/-- Witness for the amended C3: at `temp_out = 300 ≥ sg_sec_t_in = 220` the
two-sided clamp holds for the written value. -/
theorem hx_clamp_bounds_witness :
    (simLogic 100 c3WIn c3St zeroNoise quietRand).sg_sec_t_in ≤
      (simLogic 100 c3WIn c3St zeroNoise quietRand).sg_sec_t_out ∧
    (simLogic 100 c3WIn c3St zeroNoise quietRand).sg_sec_t_out ≤
      (simLogic 100 c3WIn c3St zeroNoise quietRand).temp_out := by
  have h := hx_clamp_bounds 100 c3WIn c3St zeroNoise quietRand
  refine ⟨h.1, h.2 ?_⟩
  norm_num [simLogic, tempOutUpd, heatGain, fluxUpd, coolLoss, flowLag, effValve,
    coolValveEffUpd, loopValveEffUpd, clamp01, sgSecTInUpd, dtFloor, c3WIn, c3In,
    c3St, zeroNoise, max_def, min_def,
    PHYSICS.COOLING_K, PHYSICS.COOlING_K_alias, PHYSICS.HEAT_GAIN_K,
    PHYSICS.FLOW_INERTIA, PHYSICS.VALVE_INERTIA, PHYSICS.FLUX_INERTIA,
    PHYSICS.AMBIENT_TEMP, PHYSICS.SG_SEC_FEEDWATER_TEMP]

/-- C7: Configs.PHYSICS defines no `COOlING_K` alias, so the guarded fallback
is evaluated: the cooling loss equals the canonical
`COOLING_K * (flow * eff) * max(0, temp_out - AMBIENT) * dt` with
`COOLING_K = 4.0e-3`, and the written outlet temperature is
`temp_out + heat_gain - cool_loss` plus the Gaussian term. -/
theorem cooling_fallback_canonical :
    PHYSICS.COOlING_K_alias = none ∧ PHYSICS.COOLING_K = 4 / 1000 ∧
    ∀ (dtRaw : ℚ) (inp : SimIn) (st : SimInternal) (n : SimNoise) (r : SimRand),
      coolLoss (dtFloor dtRaw) inp st =
        PHYSICS.COOLING_K * (flowLag (dtFloor dtRaw) inp * effValve (dtFloor dtRaw) inp st) *
          max 0.0 (inp.temp_out - PHYSICS.AMBIENT_TEMP) * dtFloor dtRaw ∧
      (simLogic dtRaw inp st n r).temp_out =
        inp.temp_out + heatGain (dtFloor dtRaw) inp n - coolLoss (dtFloor dtRaw) inp st
          + n.tout_n := by
  refine ⟨rfl, by norm_num [PHYSICS.COOLING_K], ?_⟩
  intro dtRaw inp st n r
  exact ⟨rfl, rfl⟩

end Factory

namespace Latency

/-- An entry of the latency proxy's scheduled-write FIFO:
`{exec_ts, tag, value}` (the latency/jitter bookkeeping fields only feed logs). -/
structure SchedItem where
  exec_ts : ℚ
  tag : String
  value : ℚ

/-- The drain phase of `AttackerLatencyProxy._logic`:
`while scheduled and scheduled[0]["exec_ts"] <= now:` pop the head; with the
tick's drop draw (`random.random() < drop_prob`, modelled by `drop` indexed by
pop count) skip the write, otherwise write the stale value with `_set`.
Returns the remaining queue and the performed writes in order. -/
def drain (now : ℚ) (drop : ℕ → Bool) :
    List SchedItem → ℕ → List SchedItem × List (String × ℚ)
  | [], _ => ([], [])
  | item :: rest, k =>
    if item.exec_ts ≤ now then
      let r := drain now drop rest (k + 1)
      (r.1, if drop k then r.2 else (item.tag, item.value) :: r.2)
    else (item :: rest, [])

/-- A queue whose head is still in the future while a past-due entry sits
behind it (reachable because jitter makes exec instants non-monotone). -/
def c6Q : List SchedItem :=
  [{ exec_ts := 10, tag := "core_temp_out_value", value := 1 },
   { exec_ts := 5, tag := "core_pressure_value", value := 2 }]

/-- Counterexample to C6 as stated: at `now = 6` the drain loop stops at the
head entry (exec 10 > 6), so the entry with exec 5 ≤ 6 behind it is NOT removed
from the FIFO — a past-due entry remains after the drain phase. -/
theorem drain_cex :
    ¬ (∀ item ∈ (drain 6 (fun _ => false) c6Q 0).1, ¬ item.exec_ts ≤ 6) := by
  intro h
  have hm : ({ exec_ts := 5, tag := "core_pressure_value", value := 2 } : SchedItem) ∈
      (drain 6 (fun _ => false) c6Q 0).1 := by
    have hq : (drain 6 (fun _ => false) c6Q 0).1 = c6Q := by
      rw [c6Q, drain]
      norm_num
    rw [hq, c6Q]
    simp
  exact h _ hm (by norm_num)

/-- C6 amended: the drain phase removes exactly the longest FIFO prefix of
entries with `exec ≤ now`, in enqueue order; absent drops, each removed entry's
previously sampled (stale) value is written to its tag in that order.  Past-due
entries that sit behind an entry whose exec instant is still in the future are
not drained and remain queued. -/
theorem drain_maximal_prefix (now : ℚ) (drop : ℕ → Bool) (q : List SchedItem) (k : ℕ) :
    (drain now drop q k).1 = q.dropWhile (fun item => decide (item.exec_ts ≤ now)) ∧
    (drain now (fun _ => false) q k).2 =
      (q.takeWhile (fun item => decide (item.exec_ts ≤ now))).map
        (fun item => (item.tag, item.value)) := by
  induction q generalizing k with
  | nil => exact ⟨rfl, rfl⟩
  | cons a t ih =>
    by_cases h : a.exec_ts ≤ now
    · constructor
      · simp [drain, h, (ih (k + 1)).1, List.dropWhile_cons]
      · simp [drain, h, (ih (k + 1)).2, List.takeWhile_cons]
    · constructor
      · simp [drain, h, List.dropWhile_cons]
      · simp [drain, h, List.takeWhile_cons]

end Latency

namespace Spike

/-- Whether the character-list pattern matches at the head of the text. -/
def matchesAt : List Char → List Char → Bool
  | [], _ => true
  | _ :: _, [] => false
  | a :: as, b :: bs => a == b && matchesAt as bs

/-- Whether the pattern occurs contiguously anywhere in the text (Python's
`pat in s` substring test). -/
def containsSub (pat : List Char) : List Char → Bool
  | [] => matchesAt pat []
  | b :: bs => matchesAt pat (b :: bs) || containsSub pat bs

/-- Python's `pat in s` on strings. -/
def strContains (s pat : String) : Bool := containsSub pat.toList s.toList

/-- The soft-clamp guard of `AttackerSensorSpike._logic`:
`if "flow" in t or "valve" in t`. -/
def isFlowOrValve (t : String) : Bool := strContains t "flow" || strContains t "valve"

/-- Spike mode chosen at the prompt: absolute, multiply or offset. -/
inductive SpikeMode where
  | absolute
  | multiply
  | offset

/-- The mode parameters (`abs`, `factor`, `offset` in the source prompts). -/
structure SpikeParams where
  absVal : ℚ
  factor : ℚ
  delta : ℚ

/-- The value one spike write stores for target `t`: `cur = _receive_safe(t)`
with 0.0 substituted when both read paths fail (`if cur is None: cur = 0.0`),
then the per-mode `spike_val`, then for tag names containing "flow" or "valve"
the clamp `max(0.0, min(1.5, spike_val))`. -/
def spikeWriteVal (mode : SpikeMode) (p : SpikeParams) (t : String) (cur : Option ℚ) : ℚ :=
  let c := cur.getD 0.0
  let v :=
    match mode with
    | .absolute => p.absVal
    | .multiply => c * p.factor
    | .offset => c + p.delta
  if isFlowOrValve t then max 0.0 (min 1.5 v) else v

/-- C8: per mode the written spike value is the configured absolute value,
`current * factor`, or `current + delta`, clamped into `[0, 1.5]` exactly for
targets whose name contains "flow" or "valve"; in particular multiply mode with
factor 1.3 on `sg_feedwater_flow_value` reading 0.6 writes 0.78. -/
theorem spike_value_modes (p : SpikeParams) (t : String) (cur : ℚ) :
    spikeWriteVal .absolute p t (some cur) =
      (if isFlowOrValve t then max 0.0 (min 1.5 p.absVal) else p.absVal) ∧
    spikeWriteVal .multiply p t (some cur) =
      (if isFlowOrValve t then max 0.0 (min 1.5 (cur * p.factor)) else cur * p.factor) ∧
    spikeWriteVal .offset p t (some cur) =
      (if isFlowOrValve t then max 0.0 (min 1.5 (cur + p.delta)) else cur + p.delta) ∧
    spikeWriteVal .multiply { absVal := 0, factor := 1.3, delta := 0 }
        "sg_feedwater_flow_value" (some 0.6) = 0.78 := by
  refine ⟨rfl, rfl, rfl, ?_⟩
  have hfv : isFlowOrValve "sg_feedwater_flow_value" = true := rfl
  simp only [spikeWriteVal, hfv, Option.getD, if_true]
  norm_num [max_def, min_def]

/-- C10: when both read paths fail (`_receive_safe` returns `None`), the spike
write still happens with 0.0 substituted: multiply mode writes 0 (clamped or
not), offset mode writes exactly the configured delta (clamped for flow/valve
tags), and absolute mode is unaffected by the failed read. -/
theorem spike_failed_read (p : SpikeParams) (t : String) (cur : ℚ) :
    spikeWriteVal .multiply p t none = 0 ∧
    spikeWriteVal .offset p t none =
      (if isFlowOrValve t then max 0.0 (min 1.5 p.delta) else p.delta) ∧
    spikeWriteVal .absolute p t none = spikeWriteVal .absolute p t (some cur) := by
  refine ⟨?_, ?_, rfl⟩
  · unfold spikeWriteVal
    by_cases h : isFlowOrValve t = true <;>
      simp [h, Option.getD, min_def, max_def] <;> norm_num
  · unfold spikeWriteVal
    by_cases h : isFlowOrValve t = true <;> simp [h, Option.getD] <;> norm_num

end Spike

namespace HMI

/-- A single tag-store access. -/
inductive TagOp where
  | readTag (name : String)
  | writeTag (name : String) (v : ℚ)

/-- The shared tag store, as a name-to-scalar mapping. -/
def TagStore : Type := String → ℚ

/-- Effect of one access on the store: reads leave it untouched, writes update
the named cell. -/
def applyOp (s : TagStore) : TagOp → TagStore
  | .readTag _ => s
  | .writeTag nm v => fun m => if m = nm then v else s m

/-- Effect of a sequence of accesses on the store. -/
def applyOps (s : TagStore) (ops : List TagOp) : TagStore := ops.foldl applyOp s

/-- Whether an access is a read. -/
def isRead : TagOp → Bool
  | .readTag _ => true
  | .writeTag _ _ => false

/-- Tag-store accesses of `HMI1.__update_messages`: each displayed tag is read
once through `__get_formatted_value` → `self._receive(tag)`.  The displayed
list is a parameter (it is the row-matched subset of `self.tags`); HMI1.py
contains no `_set` call, so every access is a read whatever the subset. -/
def updateMessagesOps (displayed : List String) : List TagOp :=
  displayed.map TagOp.readTag

/-- The 18 tags `HMI1.__log_one_line_snapshot` reads (via `__get_val` →
`self._receive`), in source order. -/
def snapshotOps : List TagOp :=
  [TagOp.readTag "core_neutron_flux_value", TagOp.readTag "core_neutron_flux_sp",
   TagOp.readTag "core_temp_in_value", TagOp.readTag "core_temp_out_value",
   TagOp.readTag "core_pressure_value", TagOp.readTag "core_flow_value",
   TagOp.readTag "sg_in_pressure_value", TagOp.readTag "primary_rad_mon_value",
   TagOp.readTag "primary_loop_valve_pos_value",
   TagOp.readTag "sg_sec_temp_in_value", TagOp.readTag "sg_sec_temp_out_value",
   TagOp.readTag "sg_steam_pressure_value", TagOp.readTag "sg_level_value",
   TagOp.readTag "sg_feedwater_flow_value",
   TagOp.readTag "sg_feedwater_valve_cmd", TagOp.readTag "sg_feedwater_valve_mode",
   TagOp.readTag "sg_relief_valve_status", TagOp.readTag "core_alarm_status"]

/-- One HMI tick: `_operate` (`__update_messages` over the displayed tags)
followed by `_display` (`__show_table`, which touches no tags, then
`__log_one_line_snapshot`). -/
def hmiTickOps (displayed : List String) : List TagOp :=
  updateMessagesOps displayed ++ snapshotOps

/-- A store is unchanged by a sequence of reads. -/
lemma applyOps_of_reads (ops : List TagOp) (h : ∀ op ∈ ops, isRead op = true)
    (s : TagStore) : applyOps s ops = s := by
  induction ops with
  | nil => rfl
  | cons a t ih =>
    cases a with
    | readTag nm =>
      exact ih (fun op hop => h op (List.mem_cons_of_mem _ hop))
    | writeTag nm v =>
      have := h _ (List.mem_cons_self _ _)
      simp [isRead] at this

/-- C9: the HMI tick performs only reads against the tag store — for any
displayed-row subset, every access of the tick is a read and the store is
identical before and after the tick. -/
theorem hmi_pure_reader (displayed : List String) (s : TagStore) :
    (∀ op ∈ hmiTickOps displayed, isRead op = true) ∧
    applyOps s (hmiTickOps displayed) = s := by
  have hall : ∀ op ∈ hmiTickOps displayed, isRead op = true := by
    intro op hop
    rcases List.mem_append.1 hop with h1 | h2
    · obtain ⟨nm, -, rfl⟩ := List.mem_map.1 h1
      rfl
    · fin_cases h2 <;> rfl
  exact ⟨hall, applyOps_of_reads _ hall s⟩

/-- Witness for C9 at a concrete displayed list and store: the tick leaves the
all-zero store unchanged, and its first access is a read. -/
theorem hmi_pure_reader_witness :
    applyOps (fun _ => 0) (hmiTickOps ["core_temp_out_value"]) = (fun _ => 0) ∧
    isRead (TagOp.readTag "core_temp_out_value") = true :=
  ⟨(hmi_pure_reader ["core_temp_out_value"] (fun _ => 0)).2,
   (hmi_pure_reader ["core_temp_out_value"] (fun _ => 0)).1 _
     (by simp [hmiTickOps, updateMessagesOps])⟩

end HMI
